import Mathlib

/-
Verification of the agent-sandbox deployment controller.

Shallow embedding of the Python source under apps/api/src/app:
  - services/storage.py   (artifact store)
  - services/cleanup.py   (TTL reaper)
  - services/docker.py    (container driver surface used by the claims)
  - services/lifecycle.py (webhook retry loop)
  - ws/progress.py        (event-bus broadcast)
  - api/deployments.py, api/artifacts.py, api/logs.py (handlers)

Conventions of the embedding:
  - bytes are `List Nat`; SHA-256 is an uninterpreted parameter `hash : Bytes → String`
    (the Python code only ever compares two applications of the same hash, so every
    theorem is proved for an arbitrary hash function);
  - the filesystem is an association list path → bytes where a write prepends
    (reads take the first match, so a later write shadows an earlier one, exactly
    like `open(path, "wb")`);
  - fallible external effects (container teardown, HTTP attempts, WebSocket sends)
    are oracles passed in as functions; the embedding records which effects the
    code would invoke;
  - wall-clock instants are integer seconds; `age_minutes >= ttl_minutes` on exact
    arithmetic is `60 * ttl <= now - created`, which is the float comparison of
    cleanup.py line 101-103 without rounding.
-/

set_option autoImplicit false

namespace AgentSandbox

/-- Byte strings, one `Nat` per byte. -/
abbrev Bytes := List Nat

/-- A row of the `artifacts` SQLite table (storage.py, ArtifactMetadata). -/
structure ArtifactRow where
  id : String
  deployment_id : String
  filename : String
  content_type : String
  size : Nat
  sha256 : String
  created_at : Nat
  path : String
deriving DecidableEq, Repr

/-- Storage backing state: files on disk plus the metadata table. -/
structure Store where
  files : List (String × Bytes)
  db : List ArtifactRow
deriving DecidableEq, Repr

/-- Read a file: first matching path wins (writes prepend, shadowing old content). -/
def readFile (fs : List (String × Bytes)) (p : String) : Option Bytes :=
  (fs.find? (fun e => e.1 == p)).map (fun e => e.2)

/-- Write (or overwrite) a file, as `open(path, "wb")` does. -/
def writeFile (fs : List (String × Bytes)) (p : String) (c : Bytes) : List (String × Bytes) :=
  (p, c) :: fs

/-- Storage path of an artifact: `<root>/<deployment_id>/<artifact_id>_<filename>`
(storage.py lines 137-142). -/
def artifactPath (root deployment_id artifact_id filename : String) : String :=
  root ++ "/" ++ deployment_id ++ "/" ++ artifact_id ++ "_" ++ filename

/-- StorageService.save_artifact (storage.py lines 105-194): hash and measure the
content, write the file, then insert the metadata row. `artifact_id` stands for
the `uuid.uuid4()` draw and `now` for `datetime.utcnow()`. -/
def save_artifact (hash : Bytes → String) (root : String) (st : Store)
    (artifact_id deployment_id filename : String) (content : Bytes)
    (content_type : String) (now : Nat) : ArtifactRow × Store :=
  let sha := hash content
  let size := content.length
  let path := artifactPath root deployment_id artifact_id filename
  let meta : ArtifactRow :=
    { id := artifact_id, deployment_id := deployment_id, filename := filename
      content_type := content_type, size := size, sha256 := sha
      created_at := now, path := path }
  (meta, { files := writeFile st.files path content, db := st.db ++ [meta] })

/-- StorageService.get_artifact (storage.py lines 196-252): look the row up, read
the file, recompute the hash; a missing row, a missing file and a hash mismatch
all return `none`. The store is threaded through unchanged — the code performs
no write on any of these paths. -/
def get_artifact (hash : Bytes → String) (st : Store) (artifact_id : String) :
    Option (ArtifactRow × Bytes) × Store :=
  match st.db.find? (fun r => r.id == artifact_id) with
  | none => (none, st)
  | some row =>
    match readFile st.files row.path with
    | none => (none, st)
    | some content =>
      if hash content == row.sha256 then (some (row, content), st) else (none, st)

/-- Result of an HTTP handler: a 200 payload or an HTTPException. -/
inductive ApiResult (α : Type) where
  | ok (value : α)
  | httpError (status : Nat) (detail : String)
deriving DecidableEq, Repr

/-- download_artifact (api/artifacts.py lines 120-141): `None` from the service
becomes a 404; otherwise a 200 response with the content and artifact headers. -/
def download_artifact (hash : Bytes → String) (st : Store) (artifact_id : String) :
    ApiResult (ArtifactRow × Bytes × List (String × String)) × Store :=
  match get_artifact hash st artifact_id with
  | (none, st') => (.httpError 404 "Artifact not found", st')
  | (some (m, c), st') =>
    (.ok (m, c,
      [("Content-Disposition", "attachment; filename=\"" ++ m.filename ++ "\""),
       ("X-Artifact-ID", m.id),
       ("X-Artifact-SHA256", m.sha256)]), st')

/-- Insert a row into a list held in `created_at`-descending order. -/
def insertDesc (r : ArtifactRow) : List ArtifactRow → List ArtifactRow
  | [] => [r]
  | x :: xs => if x.created_at ≤ r.created_at then r :: x :: xs else x :: insertDesc r xs

/-- ORDER BY created_at DESC of the artifacts table. -/
def sortByCreatedDesc (rows : List ArtifactRow) : List ArtifactRow :=
  rows.foldr insertDesc []

/-- Python truthiness of the optional `deployment_id` filter: `None` and `""`
are both falsy (`if deployment_id:` in storage.py line 272). -/
def isTruthy (s : Option String) : Bool :=
  match s with
  | none => false
  | some v => v != ""

/-- StorageService.list_artifacts (storage.py lines 254-303): the WHERE clause is
only added when the filter is truthy; then ORDER BY created_at DESC,
OFFSET `offset`, LIMIT `limit`. -/
def list_artifacts (st : Store) (deployment_id : Option String)
    (limit offset : Nat) : List ArtifactRow :=
  let rows :=
    if isTruthy deployment_id then
      sortByCreatedDesc (st.db.filter (fun r => some r.deployment_id == deployment_id))
    else
      sortByCreatedDesc st.db
  (rows.drop offset).take limit

/-- A record of api/deployments.py's `Deployment` model. `pathPrefixVal` embeds the
`path_prefix` field. -/
structure DeploymentRec where
  id : String
  pathPrefixVal : String
  image : String
  port : Nat
  url : String
  container_id : Option String
  status : String
  created_at : Int
  ttl_minutes : Nat
deriving DecidableEq, Repr

/-- Combined mutable state the reaper claims run over: the CleanupService's own
`_deployments` tracking map (cleanup.py line 44: id → (created_at, ttl_minutes))
and the API module's `_deployments` registry (api/deployments.py line 87). -/
structure SysState where
  tracked : List (String × Int × Nat)
  registry : List (String × DeploymentRec)
deriving DecidableEq, Repr

/-- CleanupResult (cleanup.py lines 20-28). -/
structure CleanupResult where
  expired_count : Nat
  orphan_count : Nat
  failed_count : Nat
  containers_removed : List String
  errors : List String
deriving DecidableEq, Repr

/-- The all-zero CleanupResult both phases start from. -/
def emptyCleanupResult : CleanupResult :=
  { expired_count := 0, orphan_count := 0, failed_count := 0
    containers_removed := [], errors := [] }

/-- Container name derivation `f"{settings.CONTAINER_PREFIX}-{deployment_id}"`. -/
def containerName (cpre deployment_id : String) : String :=
  cpre ++ "-" ++ deployment_id

/-- CleanupService.get_expired_deployments (cleanup.py lines 88-106): skip
`ttl_minutes == 0`, collect ids whose age in minutes is at least the TTL.
`(now - created) / 60 >= ttl` over the rationals is `60 * ttl <= now - created`. -/
def get_expired_deployments (tracked : List (String × Int × Nat)) (now : Int) :
    List String :=
  (tracked.filter
    (fun e => e.2.2 != 0 && decide (60 * (e.2.2 : Int) ≤ now - e.2.1))).map
    (fun e => e.1)

/-- CleanupService.unregister_deployment (cleanup.py lines 73-86): delete the key. -/
def unregister_deployment (tracked : List (String × Int × Nat)) (deployment_id : String) :
    List (String × Int × Nat) :=
  tracked.filter (fun e => e.1 != deployment_id)

/-- Loop body of CleanupService.cleanup_expired (cleanup.py lines 131-153).
`tear name` is the teardown oracle: `none` means the awaited teardown returned,
`some msg` that it raised with message `msg`. The third component of the result
accumulates the container names teardown was invoked on, in order. -/
def cleanup_expired_go (tear : String → Option String) (cpre : String) :
    List String → SysState → CleanupResult → List String →
    CleanupResult × SysState × List String
  | [], st, acc, invoked => (acc, st, invoked)
  | deployment_id :: rest, st, acc, invoked =>
    let name := containerName cpre deployment_id
    match tear name with
    | none =>
      cleanup_expired_go tear cpre rest
        { st with tracked := unregister_deployment st.tracked deployment_id }
        { acc with expired_count := acc.expired_count + 1
                   containers_removed := acc.containers_removed ++ [name] }
        (invoked ++ [name])
    | some msg =>
      cleanup_expired_go tear cpre rest st
        { acc with failed_count := acc.failed_count + 1
                   errors := acc.errors ++ [name ++ ": " ++ msg] }
        (invoked ++ [name])

/-- CleanupService.cleanup_expired (cleanup.py lines 108-155): compute the expired
list, then tear each down; on success unregister it from the reaper's own map.
The API registry component is never touched by this code path. -/
def cleanup_expired (tear : String → Option String) (cpre : String) (now : Int)
    (st : SysState) : CleanupResult × SysState × List String :=
  cleanup_expired_go tear cpre (get_expired_deployments st.tracked now) st
    emptyCleanupResult []

/-- One element of DockerService.list_sandbox_containers' output (docker.py
lines 164-182): only containers bearing the label `sandbox.deployment=true` are
listed, with their name and `sandbox.path_prefix` label. -/
structure ContainerInfo where
  id : String
  name : String
  status : String
  image : String
  pathPrefixVal : String
deriving DecidableEq, Repr

/-- Loop body of CleanupService.cleanup_orphans (cleanup.py lines 183-209): only
containers whose name starts with `<prefix>-` are considered; the deployment id
is the name with that prefix stripped; untracked ids are torn down. -/
def cleanup_orphans_go (tear : String → Option String) (cpre : String)
    (tracked_ids : List String) :
    List ContainerInfo → CleanupResult → List String → CleanupResult × List String
  | [], acc, invoked => (acc, invoked)
  | c :: rest, acc, invoked =>
    if c.name.startsWith (cpre ++ "-") then
      let deployment_id := c.name.drop (cpre.length + 1)
      if tracked_ids.contains deployment_id then
        cleanup_orphans_go tear cpre tracked_ids rest acc invoked
      else
        match tear c.name with
        | none =>
          cleanup_orphans_go tear cpre tracked_ids rest
            { acc with orphan_count := acc.orphan_count + 1
                       containers_removed := acc.containers_removed ++ [c.name] }
            (invoked ++ [c.name])
        | some msg =>
          cleanup_orphans_go tear cpre tracked_ids rest
            { acc with failed_count := acc.failed_count + 1
                       errors := acc.errors ++ [c.name ++ ": " ++ msg] }
            (invoked ++ [c.name])
    else
      cleanup_orphans_go tear cpre tracked_ids rest acc invoked

/-- CleanupService.cleanup_orphans (cleanup.py lines 157-210) applied to the
listing `containers` returned by the driver. -/
def cleanup_orphans (tear : String → Option String) (cpre : String) (st : SysState)
    (containers : List ContainerInfo) : CleanupResult × List String :=
  cleanup_orphans_go tear cpre (st.tracked.map (fun e => e.1)) containers
    emptyCleanupResult []

/-- Outcome of one HTTP POST attempt inside LifecycleService._invoke_hook
(lifecycle.py lines 191-235): a response with some status code, an
httpx.TimeoutException, an httpx.RequestError, or any other exception. -/
inductive HttpOutcome where
  | resp (code : Nat)
  | timeout
  | connError (msg : String)
  | otherExc (msg : String)
deriving DecidableEq, Repr

/-- httpx `response.is_success`: status in the 2xx range. -/
def isSuccessCode (code : Nat) : Bool :=
  200 ≤ code && code < 300

/-- The `last_error` string the loop records for a failed attempt. -/
def outcomeError : HttpOutcome → String
  | .resp code => "HTTP " ++ toString code
  | .timeout => "Timeout"
  | .connError msg => msg
  | .otherExc msg => msg

/-- The fields of a HookInvocation the claims speak about (lifecycle.py 42-53). -/
structure HookResult where
  success : Bool
  status_code : Option Nat
  error : Option String
deriving DecidableEq, Repr

/-- The retry loop of _invoke_hook (lifecycle.py lines 191-262). `outcome i` is
what the i-th HTTP attempt does at the endpoint. `fuel` counts the remaining
iterations of `for attempt in range(retry_count)`. Also returned: the number of
HTTP attempts performed and the number of `asyncio.sleep(retry_delay_seconds)`
calls executed (the code sleeps after a failed attempt except the last one:
`attempt < retry_count - 1`, i.e. `attempt + 1 < retry_count`). -/
def invoke_hook_go (outcome : Nat → HttpOutcome) (retry_count : Nat) :
    Nat → Nat → Option Nat → Option String → Nat → HookResult × Nat × Nat
  | attempt, 0, sc, le, sleeps => ({ success := false, status_code := sc, error := le }, attempt, sleeps)
  | attempt, fuel + 1, sc, le, sleeps =>
    match outcome attempt with
    | .resp code =>
      if isSuccessCode code then
        ({ success := true, status_code := some code, error := none }, attempt + 1, sleeps)
      else
        invoke_hook_go outcome retry_count (attempt + 1) fuel (some code)
          (some ("HTTP " ++ toString code))
          (if attempt + 1 < retry_count then sleeps + 1 else sleeps)
    | o =>
      invoke_hook_go outcome retry_count (attempt + 1) fuel sc
        (some (outcomeError o))
        (if attempt + 1 < retry_count then sleeps + 1 else sleeps)

/-- LifecycleService._invoke_hook: run the retry loop from attempt 0. Exactly one
HookInvocation record is produced per call (the single return value). -/
def invoke_hook (outcome : Nat → HttpOutcome) (retry_count : Nat) :
    HookResult × Nat × Nat :=
  invoke_hook_go outcome retry_count 0 retry_count none none 0

section Broadcast

variable {σ : Type} [DecidableEq σ]

/-- The send loop of ConnectionManager.broadcast (progress.py lines 80-86): each
subscriber in the snapshot gets one `send_text`; `ok w = false` means the send
raised and `w` is appended to `disconnected`. Returns (received, disconnected),
both in subscriber order. -/
def send_all (ok : σ → Bool) : List σ → List σ × List σ
  | [] => ([], [])
  | w :: ws =>
    let p := send_all ok ws
    if ok w then (w :: p.1, p.2) else (p.1, w :: p.2)

/-- ConnectionManager.disconnect's removal step (progress.py lines 56-57):
`if websocket in connections: connections.remove(websocket)`. -/
def remove_if_member (l : List σ) (w : σ) : List σ :=
  if w ∈ l then l.erase w else l

/-- ConnectionManager.broadcast for one deployment (progress.py lines 62-90):
snapshot the subscriber list, send to every subscriber of the snapshot, then —
only after the whole loop — disconnect the ones whose send raised. Returns
(subscribers that received, subscriber list after cleanup). There is no
send-deadline anywhere in this code path. -/
def broadcast (subs : List σ) (ok : σ → Bool) : List σ × List σ :=
  let snapshot := subs
  let p := send_all ok snapshot
  (p.1, p.2.foldl remove_if_member subs)

end Broadcast

/-- _verify_secret (api/deployments.py lines 90-94): raises 401 iff a secret is
configured and the header does not equal it. `true` means the check passes. -/
def verify_secret (webhookSecretCfg : String) (x_sandbox_secret : Option String) :
    Bool :=
  !(webhookSecretCfg != "" && x_sandbox_secret != some webhookSecretCfg)

/-- One hex digit, lowercase, as Python's `%x` formatting produces. -/
def hexDigit (n : Nat) : Char :=
  if n < 10 then Char.ofNat (48 + n) else Char.ofNat (87 + n)

/-- `secrets.token_hex(6)`: hex-encode the 6 random bytes, two lowercase hex
digits per byte. `randBytes` stands for the random draw. -/
def token_hex (randBytes : List Nat) : String :=
  String.mk ((randBytes.map
    (fun b => [hexDigit (b % 256 / 16), hexDigit (b % 256 % 16)])).flatten)

/-- Lowercase hexadecimal digit test. -/
def isHexChar (c : Char) : Bool :=
  (decide ('0' ≤ c) && decide (c ≤ '9')) || (decide ('a' ≤ c) && decide (c ≤ 'f'))

/-- The body of a POST /webhook/deploy request (api/deployments.py DeployRequest).
`pathPrefixVal` embeds the `path_prefix` field. -/
structure DeployRequest where
  image : String
  pathPrefixVal : String
  port : Nat
  env : List (String × String)
  ttl_minutes : Nat
deriving DecidableEq, Repr

/-- DeployResponse (api/deployments.py lines 28-35). -/
structure DeployResponse where
  status : String
  deployment_id : String
  url : String
  container_id : Option String
  error : Option String
deriving DecidableEq, Repr

/-- deploy_container (api/deployments.py lines 97-160): verify the secret first;
derive the deployment id (`request.path_prefix or secrets.token_hex(6)` — the
empty string is falsy, so it falls back to the token); call the driver; on
success store the Deployment in the registry (ttl_minutes takes the model
default 60 — the handler does not pass the request's TTL), on a driver exception
return `status:"failed"` with the error. The last component lists the container
names the driver was asked to deploy ([] iff the driver was never reached). -/
def deploy_container (secretCfg cpre domain : String) (hdr : Option String)
    (req : DeployRequest) (randBytes : List Nat)
    (driverOutcome : Except String String) (now : Int)
    (registry : List (String × DeploymentRec)) :
    ApiResult DeployResponse × List (String × DeploymentRec) × List String :=
  if !(verify_secret secretCfg hdr) then
    (.httpError 401 "Invalid webhook secret", registry, [])
  else
    let deployment_id :=
      if req.pathPrefixVal == "" then token_hex randBytes else req.pathPrefixVal
    let name := containerName cpre deployment_id
    let url := "https://" ++ domain ++ "/" ++ deployment_id ++ "/"
    match driverOutcome with
    | .ok container_id =>
      let dep : DeploymentRec :=
        { id := deployment_id, pathPrefixVal := deployment_id, image := req.image
          port := req.port, url := url, container_id := some container_id
          status := "running", created_at := now, ttl_minutes := 60 }
      (.ok { status := "deployed", deployment_id := deployment_id, url := url
             container_id := some container_id, error := none },
       (deployment_id, dep) :: registry, [name])
    | .error e =>
      (.ok { status := "failed", deployment_id := deployment_id, url := url
             container_id := none, error := some e },
       registry, [name])

/-- teardown_container (api/deployments.py lines 163-187): verify the secret
first; tear the container down (`tear` is the driver oracle: `none` = returned,
NotFound already swallowed by the driver; `some e` = raised); on success drop the
id from the registry and answer 200, on an exception answer 500. -/
def teardown_container (secretCfg cpre : String) (hdr : Option String)
    (deployment_id : String) (tear : String → Option String)
    (registry : List (String × DeploymentRec)) :
    ApiResult (String × String) × List (String × DeploymentRec) × List String :=
  if !(verify_secret secretCfg hdr) then
    (.httpError 401 "Invalid webhook secret", registry, [])
  else
    let name := containerName cpre deployment_id
    match tear name with
    | none =>
      (.ok ("removed", deployment_id),
       registry.filter (fun e => e.1 != deployment_id), [name])
    | some e => (.httpError 500 e, registry, [name])

/-- The last `n` elements of a list: docker-py's `logs(tail=n)`. -/
def lastN {α : Type} (n : Nat) (l : List α) : List α :=
  l.drop (l.length - n)

/-- DockerService.get_container_logs (docker.py lines 184-194): `world name` is
the engine state — `none` when the container does not exist, in which case the
NotFound is caught and the empty string returned; otherwise the last `tail`
lines, newline-joined (the decoded byte tail). -/
def get_container_logs (world : String → Option (List String)) (name : String)
    (tail : Nat) : String :=
  match world name with
  | none => ""
  | some lines => String.intercalate "\n" (lastN tail lines)

/-- The JSON body of the non-follow GET /deployments/id/logs response
(api/logs.py lines 49-58). -/
structure LogsResponse where
  deployment_id : String
  container : String
  lines : Nat
  logs : String
deriving DecidableEq, Repr

/-- get_container_logs endpoint, follow=false branch (api/logs.py lines 49-61):
derive the container name, fetch the tail, answer 200 with the JSON body. The
driver call cannot raise on a missing container (it returns ""), so the 500
branch is unreachable on that input. -/
def logs_endpoint (world : String → Option (List String)) (cpre : String)
    (deployment_id : String) (tail : Nat) : ApiResult LogsResponse :=
  let name := containerName cpre deployment_id
  .ok { deployment_id := deployment_id, container := name, lines := tail
        logs := get_container_logs world name tail }

/-- A concrete stand-in hash used by the executable witnesses: the byte sum,
rendered as a decimal string. (The theorems themselves are proved for every
hash function.) -/
def demoHash : Bytes → String :=
  fun bs => toString (bs.foldl (fun a b => a + b) 0)

/-- A concrete deployment record for executable counterexamples and witnesses:
deployment "d1", image "img", port 3000, running, created at second 0, TTL 1. -/
def demoRec : DeploymentRec :=
  { id := "d1", pathPrefixVal := "d1", image := "img", port := 3000, url := "u"
    container_id := some "c", status := "running", created_at := 0
    ttl_minutes := 1 }

/-- An attempt outcome that _invoke_hook treats as success: a response whose
status is 2xx. Timeouts, connection errors and other exceptions are never
success. -/
def isSuccessOutcome : HttpOutcome → Bool
  | .resp code => isSuccessCode code
  | _ => false

/-- The containers the orphan phase acts on: listed (hence sandbox-labeled)
containers whose name starts with `<prefix>-` and whose name-derived deployment
id is not tracked. -/
def orphan_candidates (cpre : String) (tracked_ids : List String)
    (containers : List ContainerInfo) : List ContainerInfo :=
  containers.filter (fun c =>
    c.name.startsWith (cpre ++ "-")
    && !(tracked_ids.contains (c.name.drop (cpre.length + 1))))

/-! ## Helper lemmas -/

theorem find_append_of_all_false {α : Type} (p : α → Bool) (l1 l2 : List α)
    (h : ∀ x ∈ l1, p x = false) : (l1 ++ l2).find? p = l2.find? p := by
  induction l1 with
  | nil => rfl
  | cons a l ih =>
    have ha := h a (by simp)
    simp only [List.cons_append, List.find?, ha]
    exact ih (fun x hx => h x (by simp [hx]))

theorem insertDesc_length (r : ArtifactRow) (l : List ArtifactRow) :
    (insertDesc r l).length = l.length + 1 := by
  induction l with
  | nil => rfl
  | cons x xs ih =>
    by_cases h : x.created_at ≤ r.created_at <;> simp [insertDesc, h, ih]

theorem sortByCreatedDesc_length (rows : List ArtifactRow) :
    (sortByCreatedDesc rows).length = rows.length := by
  induction rows with
  | nil => rfl
  | cons r rs ih => simp [sortByCreatedDesc, List.foldr] at ih ⊢; rw [insertDesc_length, ih]

/-! ## Claims about the artifact store -/

/-- C1 counterexample. The metadata row stores the hash of byte string `[1]`
("1" under the demo hash) but the file on disk holds `[2]` (hash "2").
`GET /artifacts/a` answers **404 "Artifact not found"**, byte-for-byte the same
error as for a missing row — not the HTTP 500 IntegrityError naming the artifact
id that the claim asserts. The row is retained (the store comes back unchanged),
so only the surfacing half of the claim is wrong. -/
theorem claim_C1_counterexample :
    download_artifact demoHash
      { files := [("p", [2])],
        db := [{ id := "a", deployment_id := "d", filename := "f",
                 content_type := "t", size := 1, sha256 := demoHash [1],
                 created_at := 0, path := "p" }] } "a"
    = (.httpError 404 "Artifact not found",
       { files := [("p", [2])],
         db := [{ id := "a", deployment_id := "d", filename := "f",
                  content_type := "t", size := 1, sha256 := demoHash [1],
                  created_at := 0, path := "p" }] }) := by
  rfl

/-- C1 (amended): for every artifact whose metadata row and file exist, `get`
recomputes the hash of the bytes read from disk; when it disagrees with the
stored hash the service returns `none`, which the download endpoint surfaces as
HTTP **404 "Artifact not found"** — indistinguishable from a missing row, not a
distinct 500 IntegrityError — and the bad metadata row is retained (the store
state is returned unmodified). -/
theorem claim_C1 (hash : Bytes → String) (st : Store) (artifact_id : String)
    (row : ArtifactRow) (content : Bytes)
    (hrow : st.db.find? (fun r => r.id == artifact_id) = some row)
    (hfile : readFile st.files row.path = some content)
    (hbad : hash content ≠ row.sha256) :
    get_artifact hash st artifact_id = (none, st)
    ∧ download_artifact hash st artifact_id
      = (.httpError 404 "Artifact not found", st) := by
  have hbeq : (hash content == row.sha256) = false := by
    simp [hbad]
  have hg : get_artifact hash st artifact_id = (none, st) := by
    simp [get_artifact, hrow, hfile, hbeq]
  exact ⟨hg, by simp [download_artifact, hg]⟩

/-- C1 witness: the counterexample store instantiates the amended theorem. -/
theorem claim_C1_witness :
    get_artifact demoHash
      { files := [("p", [2])],
        db := [{ id := "a", deployment_id := "d", filename := "f",
                 content_type := "t", size := 1, sha256 := demoHash [1],
                 created_at := 0, path := "p" }] } "a"
    = (none,
       { files := [("p", [2])],
         db := [{ id := "a", deployment_id := "d", filename := "f",
                  content_type := "t", size := 1, sha256 := demoHash [1],
                  created_at := 0, path := "p" }] })
    ∧ download_artifact demoHash
      { files := [("p", [2])],
        db := [{ id := "a", deployment_id := "d", filename := "f",
                 content_type := "t", size := 1, sha256 := demoHash [1],
                 created_at := 0, path := "p" }] } "a"
    = (.httpError 404 "Artifact not found",
       { files := [("p", [2])],
         db := [{ id := "a", deployment_id := "d", filename := "f",
                  content_type := "t", size := 1, sha256 := demoHash [1],
                  created_at := 0, path := "p" }] }) :=
  claim_C1 demoHash _ "a"
    { id := "a", deployment_id := "d", filename := "f", content_type := "t",
      size := 1, sha256 := demoHash [1], created_at := 0, path := "p" }
    [2] (by rfl) (by rfl) (by decide)

/-- C3: saving an artifact and immediately getting it back by the returned id
yields byte-identical content; the stored row's sha256 is the hash of the
content, and the file found at the row's recorded path hashes to exactly that
stored value. `hfresh` stands for the freshness of the `uuid.uuid4()` draw. -/
theorem claim_C3 (hash : Bytes → String) (root : String) (st : Store)
    (artifact_id deployment_id filename : String) (content : Bytes)
    (content_type : String) (now : Nat)
    (hne : content ≠ [])
    (hfresh : ∀ r ∈ st.db, r.id ≠ artifact_id) :
    (get_artifact hash
        (save_artifact hash root st artifact_id deployment_id filename content
          content_type now).2 artifact_id).1
      = some ((save_artifact hash root st artifact_id deployment_id filename
          content content_type now).1, content)
    ∧ (save_artifact hash root st artifact_id deployment_id filename content
        content_type now).1.sha256 = hash content
    ∧ readFile
        (save_artifact hash root st artifact_id deployment_id filename content
          content_type now).2.files
        (save_artifact hash root st artifact_id deployment_id filename content
          content_type now).1.path
      = some content := by
  have hall : ∀ r ∈ st.db, (fun r => r.id == artifact_id) r = false := by
    intro r hr
    simpa using hfresh r hr
  have hfind :
      ((save_artifact hash root st artifact_id deployment_id filename content
        content_type now).2.db.find? (fun r => r.id == artifact_id))
      = some (save_artifact hash root st artifact_id deployment_id filename
          content content_type now).1 := by
    simp only [save_artifact]
    rw [find_append_of_all_false _ _ _ hall]
    simp [List.find?]
  have hread :
      readFile
        (save_artifact hash root st artifact_id deployment_id filename content
          content_type now).2.files
        (save_artifact hash root st artifact_id deployment_id filename content
          content_type now).1.path
      = some content := by
    simp [save_artifact, readFile, writeFile]
  refine ⟨?_, rfl, hread⟩
  have hsha : (save_artifact hash root st artifact_id deployment_id filename
      content content_type now).1.sha256 = hash content := rfl
  simp only [get_artifact, hfind, hread, hsha]
  simp

/-- C3 witness: a concrete save/get round trip on the empty store. -/
theorem claim_C3_witness :
    (get_artifact demoHash
        (save_artifact demoHash "arts" { files := [], db := [] } "a1" "dep"
          "f.txt" [104, 105] "text/plain" 7).2 "a1").1
      = some ((save_artifact demoHash "arts" { files := [], db := [] } "a1" "dep"
          "f.txt" [104, 105] "text/plain" 7).1, [104, 105])
    ∧ (save_artifact demoHash "arts" { files := [], db := [] } "a1" "dep" "f.txt"
        [104, 105] "text/plain" 7).1.sha256 = demoHash [104, 105]
    ∧ readFile
        (save_artifact demoHash "arts" { files := [], db := [] } "a1" "dep"
          "f.txt" [104, 105] "text/plain" 7).2.files
        (save_artifact demoHash "arts" { files := [], db := [] } "a1" "dep"
          "f.txt" [104, 105] "text/plain" 7).1.path
      = some [104, 105] :=
  claim_C3 demoHash "arts" { files := [], db := [] } "a1" "dep" "f.txt"
    [104, 105] "text/plain" 7 (by decide) (by intro r hr; cases hr)

/-- C9: an empty-string `deployment_id` filter is falsy in
`if deployment_id:` and therefore ignored — the listing is identical to the
unfiltered one, and with a window covering the whole table it returns every
artifact row of every deployment (in created_at-descending order) rather than
the empty result of filtering by the nonexistent deployment `""`. -/
theorem claim_C9 (st : Store) (limit offset : Nat) :
    list_artifacts st (some "") limit offset = list_artifacts st none limit offset
    ∧ list_artifacts st (some "") st.db.length 0 = sortByCreatedDesc st.db := by
  constructor
  · rfl
  · show ((sortByCreatedDesc st.db).drop 0).take st.db.length = sortByCreatedDesc st.db
    rw [List.drop_zero, ← sortByCreatedDesc_length st.db, List.take_length]

/-- C10: when the container for a deployment does not exist, the driver's
one-shot log read catches the NotFound and returns the empty string, so the
non-follow logs endpoint answers 200 with an empty `logs` field instead of a
404 or 500. -/
theorem claim_C10 (world : String → Option (List String))
    (cpre deployment_id : String) (tail : Nat)
    (habsent : world (containerName cpre deployment_id) = none) :
    get_container_logs world (containerName cpre deployment_id) tail = ""
    ∧ logs_endpoint world cpre deployment_id tail
      = .ok { deployment_id := deployment_id
              container := containerName cpre deployment_id
              lines := tail, logs := "" } := by
  have h : get_container_logs world (containerName cpre deployment_id) tail = "" := by
    simp [get_container_logs, habsent]
  exact ⟨h, by simp [logs_endpoint, h]⟩

/-- C10 witness: an engine with no containers at all. -/
theorem claim_C10_witness :
    get_container_logs (fun _ => none) (containerName "sandbox" "d1") 100 = ""
    ∧ logs_endpoint (fun _ => none) "sandbox" "d1" 100
      = .ok { deployment_id := "d1", container := containerName "sandbox" "d1"
              lines := 100, logs := "" } :=
  claim_C10 (fun _ => none) "sandbox" "d1" 100 rfl

/-- C7: with a non-empty configured webhook secret, a deploy or teardown request
whose `X-Sandbox-Secret` header is absent or different fails with HTTP 401
before any driver call (the invoked-container list is empty) and before any
registry mutation (the registry is returned unchanged); with an empty configured
secret the check passes for any header value. -/
theorem claim_C7 (secretCfg cpre domain : String) (hdr hdr2 : Option String)
    (req : DeployRequest) (randBytes : List Nat)
    (driverOutcome : Except String String) (now : Int)
    (registry : List (String × DeploymentRec)) (deployment_id : String)
    (tear : String → Option String)
    (hcfg : secretCfg ≠ "") (hhdr : hdr ≠ some secretCfg) :
    deploy_container secretCfg cpre domain hdr req randBytes driverOutcome now
      registry = (.httpError 401 "Invalid webhook secret", registry, [])
    ∧ teardown_container secretCfg cpre hdr deployment_id tear registry
      = (.httpError 401 "Invalid webhook secret", registry, [])
    ∧ verify_secret "" hdr2 = true := by
  have hv : verify_secret secretCfg hdr = false := by
    simp [verify_secret, hcfg, hhdr]
  refine ⟨?_, ?_, ?_⟩
  · simp [deploy_container, hv]
  · simp [teardown_container, hv]
  · simp [verify_secret]

/-- C7 witness: secret "s" configured, header absent on both endpoints; and the
check passes with an empty configured secret against a wrong header. -/
theorem claim_C7_witness :
    deploy_container "s" "sandbox" "dom" none
      { image := "img", pathPrefixVal := "abc", port := 3000, env := [],
        ttl_minutes := 60 } [] (.ok "cid") 0 []
      = (.httpError 401 "Invalid webhook secret", [], [])
    ∧ teardown_container "s" "sandbox" none "abc" (fun _ => none) []
      = (.httpError 401 "Invalid webhook secret", [], [])
    ∧ verify_secret "" (some "wrong") = true :=
  claim_C7 "s" "sandbox" "dom" none (some "wrong")
    { image := "img", pathPrefixVal := "abc", port := 3000, env := [],
      ttl_minutes := 60 } [] (.ok "cid") 0 [] "abc" (fun _ => none)
    (by decide) (by decide)

/-! ## Claim C5: webhook retry -/

theorem invoke_hook_go_succ (outcome : Nat → HttpOutcome) (rc code : Nat)
    (hc : isSuccessCode code = true) :
    ∀ (m a fuel : Nat) (sc : Option Nat) (le : Option String) (s : Nat),
    a + fuel = rc → m < fuel →
    outcome (a + m) = .resp code →
    (∀ j, j < m → isSuccessOutcome (outcome (a + j)) = false) →
    invoke_hook_go outcome rc a fuel sc le s
      = ({ success := true, status_code := some code, error := none },
         a + m + 1, s + m) := by
  intro m
  induction m with
  | zero =>
    intro a fuel sc le s hfuel hm hout _
    match fuel, hm with
    | fuel + 1, _ =>
      rw [Nat.add_zero] at hout
      simp [invoke_hook_go, hout, hc]
  | succ m ih =>
    intro a fuel sc le s hfuel hm hout hfail
    match fuel, hm with
    | fuel + 1, hm =>
      have h0 : isSuccessOutcome (outcome a) = false := by
        have := hfail 0 (Nat.succ_pos m)
        simpa using this
      have hmf : m < fuel := by omega
      have hsl : a + 1 < rc := by omega
      have hout' : outcome (a + 1 + m) = .resp code := by
        rw [show a + 1 + m = a + (m + 1) by omega]; exact hout
      have hfail' : ∀ j, j < m → isSuccessOutcome (outcome (a + 1 + j)) = false := by
        intro j hj
        rw [show a + 1 + j = a + (j + 1) by omega]
        exact hfail (j + 1) (by omega)
      have harith1 : a + 1 + m + 1 = a + (m + 1) + 1 := by omega
      have harith2 : s + 1 + m = s + (m + 1) := by omega
      cases ho : outcome a with
      | resp c1 =>
        have hcf : isSuccessCode c1 = false := by
          rw [ho] at h0; simpa [isSuccessOutcome] using h0
        simp only [invoke_hook_go, ho, hcf, Bool.false_eq_true, if_false, if_pos hsl]
        rw [ih (a + 1) fuel (some c1) (some ("HTTP " ++ toString c1)) (s + 1)
          (by omega) hmf hout' hfail', harith1, harith2]
      | timeout =>
        simp only [invoke_hook_go, ho, if_pos hsl]
        rw [ih (a + 1) fuel sc (some (outcomeError .timeout)) (s + 1)
          (by omega) hmf hout' hfail', harith1, harith2]
      | connError msg =>
        simp only [invoke_hook_go, ho, if_pos hsl]
        rw [ih (a + 1) fuel sc (some (outcomeError (.connError msg))) (s + 1)
          (by omega) hmf hout' hfail', harith1, harith2]
      | otherExc msg =>
        simp only [invoke_hook_go, ho, if_pos hsl]
        rw [ih (a + 1) fuel sc (some (outcomeError (.otherExc msg))) (s + 1)
          (by omega) hmf hout' hfail', harith1, harith2]

/-- C5: a webhook whose endpoint first succeeds on attempt k (1-based,
k ≤ retry_count) — every earlier attempt being a non-2xx response, a timeout or
a connection error — yields exactly one HookInvocation record, with
success = true and the 2xx status code of attempt k, after exactly k HTTP
attempts and k − 1 sleeps of retry_delay_seconds between consecutive attempts
(retries are serial: the loop awaits each attempt and each sleep in turn). -/
theorem claim_C5 (outcome : Nat → HttpOutcome) (retry_count k code : Nat)
    (hk1 : 1 ≤ k) (hk2 : k ≤ retry_count)
    (hout : outcome (k - 1) = .resp code)
    (hcode : isSuccessCode code = true)
    (hfail : ∀ j, j < k - 1 → isSuccessOutcome (outcome j) = false) :
    invoke_hook outcome retry_count
      = ({ success := true, status_code := some code, error := none },
         k, k - 1) := by
  have h := invoke_hook_go_succ outcome retry_count code hcode (k - 1) 0
    retry_count none none 0 (by omega) (by omega)
    (by simpa using hout) (fun j hj => by simpa using hfail j hj)
  rw [invoke_hook, h, show 0 + (k - 1) + 1 = k by omega,
    show 0 + (k - 1) = k - 1 by omega]

/-- C5 witness: an endpoint that returns 500 twice then 200, with
retry_count = 3 (scenario S6): one successful record with status 200, three
attempts, two sleeps. -/
theorem claim_C5_witness :
    invoke_hook (fun i => if i < 2 then .resp 500 else .resp 200) 3
      = ({ success := true, status_code := some 200, error := none }, 3, 2) :=
  claim_C5 (fun i => if i < 2 then .resp 500 else .resp 200) 3 3 200
    (by decide) (by decide) (by decide) (by decide) (by decide)

/-! ## Claim C6: broadcast delivery set -/

section BroadcastProofs

variable {σ : Type} [DecidableEq σ]

theorem send_all_spec (ok : σ → Bool) :
    ∀ l : List σ, send_all ok l = (l.filter ok, l.filter (fun w => !(ok w))) := by
  intro l
  induction l with
  | nil => rfl
  | cons w ws ih => cases h : ok w <;> simp [send_all, ih, h]

theorem remove_if_member_eq_erase (l : List σ) (w : σ) :
    remove_if_member l w = l.erase w := by
  unfold remove_if_member
  by_cases h : w ∈ l
  · simp [h]
  · simp [h, List.erase_of_not_mem h]

theorem diff_filter_not (ok : σ → Bool) :
    ∀ l : List σ, l.Nodup →
    l.diff (l.filter (fun w => !(ok w))) = l.filter ok := by
  intro l
  induction l with
  | nil => intro _; rfl
  | cons a l ih =>
    intro hnd
    rw [List.nodup_cons] at hnd
    cases h : ok a with
    | false =>
      have h1 : (a :: l).filter (fun w => !(ok w)) = a :: l.filter (fun w => !(ok w)) := by
        simp [List.filter_cons, h]
      rw [h1, List.diff_cons, List.erase_cons_head, ih hnd.2]
      simp [List.filter_cons, h]
    | true =>
      have h1 : (a :: l).filter (fun w => !(ok w)) = l.filter (fun w => !(ok w)) := by
        simp [List.filter_cons, h]
      have h2 : a ∉ l.filter (fun w => !(ok w)) := by
        intro hmem
        exact hnd.1 (List.mem_of_mem_filter hmem)
      rw [h1, List.cons_diff_of_not_mem h2, ih hnd.2]
      simp [List.filter_cons, h]

theorem length_filter_add_length_filter_not (ok : σ → Bool) (l : List σ) :
    (l.filter ok).length + (l.filter (fun w => !(ok w))).length = l.length := by
  induction l with
  | nil => rfl
  | cons a l ih => cases h : ok a <;> simp [List.filter_cons, h] <;> omega

/-- C6: for every broadcast, the set of subscribers that receive the event is
exactly the snapshot of subscribers taken at broadcast start minus those whose
send raised (this code path has no send-deadline, so the deadline-exceeded set
is empty); every snapshot subscriber gets exactly one send attempt; and
subscribers whose send raised are removed from the connection list only after
the whole send loop completes, leaving exactly the successful ones connected. -/
theorem claim_C6 (subs : List σ) (ok : σ → Bool) (hnd : subs.Nodup) :
    (broadcast subs ok).1 = subs.filter ok
    ∧ (broadcast subs ok).2 = subs.filter ok
    ∧ (send_all ok subs).1.length + (send_all ok subs).2.length = subs.length := by
  have hs := send_all_spec ok subs
  refine ⟨by simp [broadcast, hs], ?_, by rw [hs]; exact length_filter_add_length_filter_not ok subs⟩
  show (send_all ok subs).2.foldl remove_if_member subs = subs.filter ok
  have hfold : ∀ (d l : List σ), d.foldl remove_if_member l = l.diff d := by
    intro d
    induction d with
    | nil => intro l; rfl
    | cons x d ih =>
      intro l
      rw [List.foldl_cons, remove_if_member_eq_erase, ih, List.diff_cons]
  rw [hs, hfold, diff_filter_not ok subs hnd]

end BroadcastProofs

/-- C6 witness: three subscribers, the middle one's send raises; subscribers 1
and 3 receive the event and remain connected afterwards. -/
theorem claim_C6_witness :
    (broadcast [1, 2, 3] (fun w => w != 2)).1 = [1, 2, 3].filter (fun w => w != 2)
    ∧ (broadcast [1, 2, 3] (fun w => w != 2)).2 = [1, 2, 3].filter (fun w => w != 2)
    ∧ (send_all (fun w => w != 2) [1, 2, 3]).1.length
        + (send_all (fun w => w != 2) [1, 2, 3]).2.length = ([1, 2, 3] : List Nat).length :=
  claim_C6 [1, 2, 3] (fun w => w != 2) (by decide)

/-! ## Claim C8: empty path_prefix falls back to a fresh hex token -/

theorem token_hex_length (bs : List Nat) :
    (token_hex bs).length = 2 * bs.length := by
  show ((bs.map (fun b => [hexDigit (b % 256 / 16), hexDigit (b % 256 % 16)])).flatten).length
    = 2 * bs.length
  induction bs with
  | nil => rfl
  | cons b bs ih => simp only [List.map_cons, List.flatten_cons, List.length_append, ih]; simp; omega

theorem hexDigit_isHex (n : Nat) (h : n < 16) : isHexChar (hexDigit n) = true := by
  interval_cases n <;> decide

theorem token_hex_all_hex (bs : List Nat) :
    (token_hex bs).data.all isHexChar = true := by
  rw [List.all_eq_true]
  show ∀ c ∈ (bs.map (fun b => [hexDigit (b % 256 / 16), hexDigit (b % 256 % 16)])).flatten,
    isHexChar c = true
  intro c hc
  rw [List.mem_flatten] at hc
  obtain ⟨l, hl, hcl⟩ := hc
  rw [List.mem_map] at hl
  obtain ⟨b, _, rfl⟩ := hl
  have hd : b % 256 / 16 < 16 := by
    have : b % 256 < 256 := Nat.mod_lt _ (by omega)
    omega
  have hm : b % 256 % 16 < 16 := Nat.mod_lt _ (by omega)
  rw [List.mem_cons, List.mem_singleton] at hcl
  rcases hcl with rfl | rfl
  · exact hexDigit_isHex _ hd
  · exact hexDigit_isHex _ hm

/-- C8: a deploy request with an empty `path_prefix` does not fail: the handler
falls back to `secrets.token_hex(6)` — twelve lowercase hex characters computed
from six random bytes — and uses that token as the deployment id, the
container-name suffix handed to the driver, and the URL path segment. The
handler answers 200 (`status:"deployed"` when the driver succeeds,
`status:"failed"` when it raises). -/
theorem claim_C8 (secretCfg cpre domain image : String) (hdr : Option String)
    (randBytes : List Nat) (port ttl : Nat) (env : List (String × String))
    (driverOutcome : Except String String) (now : Int)
    (registry : List (String × DeploymentRec)) (cid errMsg : String)
    (hlen : randBytes.length = 6)
    (hauth : verify_secret secretCfg hdr = true) :
    (driverOutcome = .ok cid →
      (deploy_container secretCfg cpre domain hdr
        { image := image, pathPrefixVal := "", port := port, env := env,
          ttl_minutes := ttl } randBytes driverOutcome now registry).1
      = .ok { status := "deployed", deployment_id := token_hex randBytes,
              url := "https://" ++ domain ++ "/" ++ token_hex randBytes ++ "/",
              container_id := some cid, error := none })
    ∧ (driverOutcome = .error errMsg →
      (deploy_container secretCfg cpre domain hdr
        { image := image, pathPrefixVal := "", port := port, env := env,
          ttl_minutes := ttl } randBytes driverOutcome now registry).1
      = .ok { status := "failed", deployment_id := token_hex randBytes,
              url := "https://" ++ domain ++ "/" ++ token_hex randBytes ++ "/",
              container_id := none, error := some errMsg })
    ∧ (deploy_container secretCfg cpre domain hdr
        { image := image, pathPrefixVal := "", port := port, env := env,
          ttl_minutes := ttl } randBytes driverOutcome now registry).2.2
      = [containerName cpre (token_hex randBytes)]
    ∧ (token_hex randBytes).length = 12
    ∧ (token_hex randBytes).data.all isHexChar = true := by
  refine ⟨?_, ?_, ?_, ?_, token_hex_all_hex randBytes⟩
  · intro hdrv
    subst hdrv
    simp [deploy_container, hauth]
  · intro hdrv
    subst hdrv
    simp [deploy_container, hauth]
  · cases driverOutcome <;> simp [deploy_container, hauth]
  · rw [token_hex_length, hlen]

/-- C8 witness: six concrete random bytes, empty path_prefix, no secret
configured, a driver that succeeds. -/
theorem claim_C8_witness :
    ((.ok "cid" : Except String String) = .ok "cid" →
      (deploy_container "" "sandbox" "dom" none
        { image := "img", pathPrefixVal := "", port := 3000, env := [],
          ttl_minutes := 60 } [0, 255, 16, 171, 5, 60] (.ok "cid") 0 []).1
      = .ok { status := "deployed",
              deployment_id := token_hex [0, 255, 16, 171, 5, 60],
              url := "https://" ++ "dom" ++ "/" ++ token_hex [0, 255, 16, 171, 5, 60] ++ "/",
              container_id := some "cid", error := none })
    ∧ ((.ok "cid" : Except String String) = .error "e" →
      (deploy_container "" "sandbox" "dom" none
        { image := "img", pathPrefixVal := "", port := 3000, env := [],
          ttl_minutes := 60 } [0, 255, 16, 171, 5, 60] (.ok "cid") 0 []).1
      = .ok { status := "failed",
              deployment_id := token_hex [0, 255, 16, 171, 5, 60],
              url := "https://" ++ "dom" ++ "/" ++ token_hex [0, 255, 16, 171, 5, 60] ++ "/",
              container_id := none, error := some "e" })
    ∧ (deploy_container "" "sandbox" "dom" none
        { image := "img", pathPrefixVal := "", port := 3000, env := [],
          ttl_minutes := 60 } [0, 255, 16, 171, 5, 60] (.ok "cid") 0 []).2.2
      = [containerName "sandbox" (token_hex [0, 255, 16, 171, 5, 60])]
    ∧ (token_hex [0, 255, 16, 171, 5, 60]).length = 12
    ∧ (token_hex [0, 255, 16, 171, 5, 60]).data.all isHexChar = true :=
  claim_C8 "" "sandbox" "dom" "img" none [0, 255, 16, 171, 5, 60] 3000 60 []
    (.ok "cid") 0 [] "cid" "e" (by decide) (by decide)

/-! ## Claim C2: the reaper's expire phase -/

theorem cleanup_expired_go_spec (tear : String → Option String) (cpre : String) :
    ∀ (ids : List String) (st : SysState) (acc : CleanupResult) (invoked : List String),
    cleanup_expired_go tear cpre ids st acc invoked =
      ({ expired_count := acc.expired_count
           + (ids.filter (fun i => (tear (containerName cpre i)).isNone)).length
         orphan_count := acc.orphan_count
         failed_count := acc.failed_count
           + (ids.filter (fun i => !(tear (containerName cpre i)).isNone)).length
         containers_removed := acc.containers_removed
           ++ (ids.filter (fun i => (tear (containerName cpre i)).isNone)).map
               (containerName cpre)
         errors := acc.errors
           ++ (ids.filter (fun i => !(tear (containerName cpre i)).isNone)).map
               (fun i => containerName cpre i ++ ": "
                 ++ (tear (containerName cpre i)).getD "") },
       { tracked := ids.foldl
           (fun t i => if (tear (containerName cpre i)).isNone then
             unregister_deployment t i else t) st.tracked
         registry := st.registry },
       invoked ++ ids.map (containerName cpre)) := by
  intro ids
  induction ids with
  | nil =>
    intro st acc invoked
    simp [cleanup_expired_go]
  | cons id rest ih =>
    intro st acc invoked
    cases htear : tear (containerName cpre id) with
    | none =>
      simp only [cleanup_expired_go, htear]
      rw [ih]
      simp [htear, List.filter_cons, Nat.add_assoc, Nat.add_comm, Nat.add_left_comm]
    | some msg =>
      simp only [cleanup_expired_go, htear]
      rw [ih]
      simp [htear, List.filter_cons, Nat.add_assoc, Nat.add_comm, Nat.add_left_comm]

theorem foldl_unregister_filter (c : String → Bool) :
    ∀ (ids : List String) (t : List (String × Int × Nat)),
    ids.foldl (fun t i => if c i then unregister_deployment t i else t) t
      = t.filter (fun e => !(ids.contains e.1 && c e.1)) := by
  intro ids
  induction ids with
  | nil =>
    intro t
    simp
  | cons i rest ih =>
    intro t
    rw [List.foldl_cons]
    cases hc : c i with
    | false =>
      simp only [hc, Bool.false_eq_true, if_false]
      rw [ih]
      apply List.filter_congr
      intro e _
      by_cases h1 : e.1 = i
      · simp [h1, List.contains_cons, hc]
      · simp [List.contains_cons, h1]
    | true =>
      simp only [hc, if_true]
      rw [ih]
      unfold unregister_deployment
      rw [List.filter_filter]
      apply List.filter_congr
      intro e _
      by_cases h1 : e.1 = i
      · simp [h1, hc, List.contains_cons]
      · simp [h1, List.contains_cons]

theorem pair_eq_of_keys_nodup {β : Type} :
    ∀ (l : List (String × β)) (a b : String × β),
    (l.map (fun e => e.1)).Nodup → a ∈ l → b ∈ l → a.1 = b.1 → a = b := by
  intro l
  induction l with
  | nil => intro a b _ ha; cases ha
  | cons x xs ih =>
    intro a b hnd ha hb hfst
    rw [List.map_cons, List.nodup_cons] at hnd
    rw [List.mem_cons] at ha hb
    rcases ha with rfl | ha <;> rcases hb with rfl | hb
    · rfl
    · exact absurd (hfst ▸ List.mem_map_of_mem (fun e => e.1) hb) hnd.1
    · exact absurd (hfst ▸ List.mem_map_of_mem (fun e => e.1) ha) hnd.1
    · exact ih a b hnd.2 ha hb hfst

/-- C2 counterexample. One tracked deployment "d1" (created at second 0,
TTL 1 minute) that is also present in the API module's `_deployments` registry;
the cycle runs at second 60 and teardown succeeds. The deployment is expired and
acted on — teardown of "sandbox-d1" is invoked, `expired_count = 1`, and it is
dropped from the reaper's own tracking map — yet it is **still present in the
authoritative deployment registry** afterwards, contradicting the claim that
each expired deployment is dropped from that registry: cleanup.py only touches
its own `_deployments` dict, never the one in api/deployments.py. -/
theorem claim_C2_counterexample :
    (cleanup_expired (fun _ => none) "sandbox" 60
      { tracked := [("d1", 0, 1)], registry := [("d1", demoRec)] }).2.2
      = ["sandbox-d1"]
    ∧ (cleanup_expired (fun _ => none) "sandbox" 60
      { tracked := [("d1", 0, 1)], registry := [("d1", demoRec)] }).1.expired_count = 1
    ∧ (cleanup_expired (fun _ => none) "sandbox" 60
      { tracked := [("d1", 0, 1)], registry := [("d1", demoRec)] }).2.1.tracked = []
    ∧ "d1" ∈ ((cleanup_expired (fun _ => none) "sandbox" 60
      { tracked := [("d1", 0, 1)], registry := [("d1", demoRec)] }).2.1.registry.map
        (fun e => e.1)) := by
  refine ⟨rfl, rfl, by decide, by decide⟩

/-- C2 (amended): in every expire phase, teardown is invoked on exactly the
tracked deployments with `ttl_minutes > 0` and age ≥ TTL (in tracking order);
each one whose teardown succeeds is dropped from the **reaper's own tracking
map** — the authoritative API deployment registry is never modified by this
phase — a failed teardown leaves its deployment tracked for the next cycle, and
every deployment with `ttl_minutes = 0` is skipped: it is never expired and
stays tracked. `hkeys` is the dict invariant that tracked keys are unique. -/
theorem claim_C2 (tear : String → Option String) (cpre : String) (now : Int)
    (st : SysState) (id0 : String) (c0 : Int)
    (hkeys : (st.tracked.map (fun e => e.1)).Nodup) :
    (cleanup_expired tear cpre now st).2.2
      = ((st.tracked.filter (fun e =>
          e.2.2 != 0 && decide (60 * (e.2.2 : Int) ≤ now - e.2.1))).map
          (fun e => containerName cpre e.1))
    ∧ (cleanup_expired tear cpre now st).2.1.tracked
      = st.tracked.filter (fun e =>
          !((get_expired_deployments st.tracked now).contains e.1
            && (tear (containerName cpre e.1)).isNone))
    ∧ (cleanup_expired tear cpre now st).2.1.registry = st.registry
    ∧ ((id0, c0, (0 : Nat)) ∈ st.tracked →
        id0 ∉ get_expired_deployments st.tracked now
        ∧ (id0, c0, (0 : Nat)) ∈ (cleanup_expired tear cpre now st).2.1.tracked)
    ∧ (cleanup_expired tear cpre now st).1.expired_count
      = ((get_expired_deployments st.tracked now).filter
          (fun i => (tear (containerName cpre i)).isNone)).length
    ∧ (cleanup_expired tear cpre now st).1.failed_count
      = ((get_expired_deployments st.tracked now).filter
          (fun i => !(tear (containerName cpre i)).isNone)).length
    ∧ (cleanup_expired tear cpre now st).1.containers_removed
      = ((get_expired_deployments st.tracked now).filter
          (fun i => (tear (containerName cpre i)).isNone)).map (containerName cpre)
    ∧ (cleanup_expired tear cpre now st).1.orphan_count = 0 := by
  have hgo := cleanup_expired_go_spec tear cpre
    (get_expired_deployments st.tracked now) st emptyCleanupResult []
  have hexp : (cleanup_expired tear cpre now st).2.2
      = ((st.tracked.filter (fun e =>
          e.2.2 != 0 && decide (60 * (e.2.2 : Int) ≤ now - e.2.1))).map
          (fun e => containerName cpre e.1)) := by
    rw [cleanup_expired, hgo]
    simp [get_expired_deployments, List.map_map]
  have htr : (cleanup_expired tear cpre now st).2.1.tracked
      = st.tracked.filter (fun e =>
          !((get_expired_deployments st.tracked now).contains e.1
            && (tear (containerName cpre e.1)).isNone)) := by
    rw [cleanup_expired, hgo]
    exact foldl_unregister_filter _ (get_expired_deployments st.tracked now) st.tracked
  have hnotin : ∀ (id0 : String) (c0 : Int), (id0, c0, (0 : Nat)) ∈ st.tracked →
      id0 ∉ get_expired_deployments st.tracked now := by
    intro id0 c0 hmem hin
    rw [get_expired_deployments, List.mem_map] at hin
    obtain ⟨e, he, hfst⟩ := hin
    have he' := List.mem_of_mem_filter he
    have hpred := List.of_mem_filter he
    have : (id0, c0, (0 : Nat)) = e :=
      pair_eq_of_keys_nodup st.tracked (id0, c0, 0) e hkeys hmem he' hfst.symm
    rw [← this] at hpred
    simp at hpred
  refine ⟨hexp, htr, ?_, ?_, ?_, ?_, ?_, ?_⟩
  · rw [cleanup_expired, hgo]
  · intro hmem
    refine ⟨hnotin id0 c0 hmem, ?_⟩
    rw [htr, List.mem_filter]
    refine ⟨hmem, ?_⟩
    have hcont : (get_expired_deployments st.tracked now).contains id0 = false := by
      have := hnotin id0 c0 hmem
      simpa [List.contains, List.elem_iff] using this
    simp [hcont]
    exact Or.inl (hnotin id0 c0 hmem)
  · rw [cleanup_expired, hgo]
    simp [emptyCleanupResult]
  · rw [cleanup_expired, hgo]
    simp [emptyCleanupResult]
  · rw [cleanup_expired, hgo]
    simp [emptyCleanupResult]
  · rw [cleanup_expired, hgo]
    simp [emptyCleanupResult]

/-- C2 witness: two tracked deployments — "a" (TTL 1 min, age 1 min, expired)
and "z" (TTL 0) — with "a" also in the API registry; teardown succeeds. -/
theorem claim_C2_witness :
    (cleanup_expired (fun _ => none) "sandbox" 60
      { tracked := [("a", 0, 1), ("z", 0, 0)], registry := [] }).2.2
      = (([("a", 0, 1), ("z", 0, 0)] : List (String × Int × Nat)).filter (fun e =>
          e.2.2 != 0 && decide (60 * (e.2.2 : Int) ≤ 60 - e.2.1))).map
          (fun e => containerName "sandbox" e.1)
    ∧ (cleanup_expired (fun _ => none) "sandbox" 60
      { tracked := [("a", 0, 1), ("z", 0, 0)], registry := [] }).2.1.tracked
      = ([("a", 0, 1), ("z", 0, 0)] : List (String × Int × Nat)).filter (fun e =>
          !((get_expired_deployments [("a", 0, 1), ("z", 0, 0)] 60).contains e.1
            && ((fun _ => (none : Option String)) (containerName "sandbox" e.1)).isNone))
    ∧ (cleanup_expired (fun _ => none) "sandbox" 60
      { tracked := [("a", 0, 1), ("z", 0, 0)], registry := [] }).2.1.registry = []
    ∧ (("z", (0 : Int), (0 : Nat)) ∈ ([("a", 0, 1), ("z", 0, 0)] : List (String × Int × Nat)) →
        "z" ∉ get_expired_deployments [("a", 0, 1), ("z", 0, 0)] 60
        ∧ ("z", (0 : Int), (0 : Nat)) ∈ (cleanup_expired (fun _ => none) "sandbox" 60
          { tracked := [("a", 0, 1), ("z", 0, 0)], registry := [] }).2.1.tracked)
    ∧ (cleanup_expired (fun _ => none) "sandbox" 60
      { tracked := [("a", 0, 1), ("z", 0, 0)], registry := [] }).1.expired_count
      = ((get_expired_deployments [("a", 0, 1), ("z", 0, 0)] 60).filter
          (fun i => ((fun _ => (none : Option String)) (containerName "sandbox" i)).isNone)).length
    ∧ (cleanup_expired (fun _ => none) "sandbox" 60
      { tracked := [("a", 0, 1), ("z", 0, 0)], registry := [] }).1.failed_count
      = ((get_expired_deployments [("a", 0, 1), ("z", 0, 0)] 60).filter
          (fun i => !((fun _ => (none : Option String)) (containerName "sandbox" i)).isNone)).length
    ∧ (cleanup_expired (fun _ => none) "sandbox" 60
      { tracked := [("a", 0, 1), ("z", 0, 0)], registry := [] }).1.containers_removed
      = ((get_expired_deployments [("a", 0, 1), ("z", 0, 0)] 60).filter
          (fun i => ((fun _ => (none : Option String)) (containerName "sandbox" i)).isNone)).map
          (containerName "sandbox")
    ∧ (cleanup_expired (fun _ => none) "sandbox" 60
      { tracked := [("a", 0, 1), ("z", 0, 0)], registry := [] }).1.orphan_count = 0 :=
  claim_C2 (fun _ => none) "sandbox" 60
    { tracked := [("a", 0, 1), ("z", 0, 0)], registry := [] } "z" 0 (by decide)

/-! ## Claim C4: the reaper's orphan phase -/

theorem cleanup_orphans_go_spec (tear : String → Option String) (cpre : String)
    (tracked_ids : List String) :
    ∀ (containers : List ContainerInfo) (acc : CleanupResult) (invoked : List String),
    cleanup_orphans_go tear cpre tracked_ids containers acc invoked =
      ({ expired_count := acc.expired_count
         orphan_count := acc.orphan_count
           + ((orphan_candidates cpre tracked_ids containers).filter
               (fun c => (tear c.name).isNone)).length
         failed_count := acc.failed_count
           + ((orphan_candidates cpre tracked_ids containers).filter
               (fun c => !(tear c.name).isNone)).length
         containers_removed := acc.containers_removed
           ++ ((orphan_candidates cpre tracked_ids containers).filter
               (fun c => (tear c.name).isNone)).map (fun c => c.name)
         errors := acc.errors
           ++ ((orphan_candidates cpre tracked_ids containers).filter
               (fun c => !(tear c.name).isNone)).map
               (fun c => c.name ++ ": " ++ (tear c.name).getD "") },
       invoked ++ (orphan_candidates cpre tracked_ids containers).map
         (fun c => c.name)) := by
  intro containers
  induction containers with
  | nil =>
    intro acc invoked
    simp [cleanup_orphans_go, orphan_candidates]
  | cons c rest ih =>
    intro acc invoked
    cases h1 : c.name.startsWith (cpre ++ "-") with
    | false =>
      simp only [cleanup_orphans_go, h1, Bool.false_eq_true, if_false]
      rw [ih]
      simp [orphan_candidates, List.filter_cons, h1]
    | true =>
      cases h2 : tracked_ids.contains (c.name.drop (cpre.length + 1)) with
      | true =>
        have h2m := h2
        simp at h2m
        simp only [cleanup_orphans_go, h1, h2, if_true]
        rw [ih]
        simp [orphan_candidates, List.filter_cons, h1, h2m]
      | false =>
        have h2m := h2
        simp at h2m
        cases htear : tear c.name with
        | none =>
          simp only [cleanup_orphans_go, h1, h2, htear, Bool.false_eq_true,
            if_true, if_false]
          rw [ih]
          simp [orphan_candidates, List.filter_cons, h1, h2m, htear]
          omega
        | some msg =>
          simp only [cleanup_orphans_go, h1, h2, htear, Bool.false_eq_true,
            if_true, if_false]
          rw [ih]
          simp [orphan_candidates, List.filter_cons, h1, h2m, htear]
          omega

/-- C4 counterexample (the spec's scenario S4). An external process created a
container named "ghost" carrying the sandbox label (it is in the driver's
labeled listing) while nothing is tracked; teardown would succeed. The orphan
phase nevertheless invokes no teardown and reports `orphan_count = 0`, because
cleanup.py only considers containers whose **name** starts with `<prefix>-`
("ghost" does not), contradicting the claim that every labeled untracked
container — arbitrary name included — is torn down and counted. -/
theorem claim_C4_counterexample :
    cleanup_orphans (fun _ => none) "sandbox" { tracked := [], registry := [] }
      [{ id := "x", name := "ghost", status := "running", image := "img",
         pathPrefixVal := "ghost" }]
      = (emptyCleanupResult, []) := by
  decide

/-- C4 (amended): in every orphan phase, teardown is invoked on exactly the
listed sandbox-labeled containers whose name starts with `<prefix>-` and whose
name-derived deployment id is not tracked; each successful teardown increments
`orphan_count` and records the container name, each failed one increments
`failed_count`; a labeled container whose name lacks the `<prefix>-` prefix
(e.g. one created externally with an arbitrary name, as in scenario S4) is
skipped and never torn down. -/
theorem claim_C4 (tear : String → Option String) (cpre : String) (st : SysState)
    (containers : List ContainerInfo) (c0 : ContainerInfo) :
    (cleanup_orphans tear cpre st containers).2
      = (orphan_candidates cpre (st.tracked.map (fun e => e.1)) containers).map
          (fun c => c.name)
    ∧ (cleanup_orphans tear cpre st containers).1.orphan_count
      = ((orphan_candidates cpre (st.tracked.map (fun e => e.1)) containers).filter
          (fun c => (tear c.name).isNone)).length
    ∧ (cleanup_orphans tear cpre st containers).1.containers_removed
      = ((orphan_candidates cpre (st.tracked.map (fun e => e.1)) containers).filter
          (fun c => (tear c.name).isNone)).map (fun c => c.name)
    ∧ (cleanup_orphans tear cpre st containers).1.failed_count
      = ((orphan_candidates cpre (st.tracked.map (fun e => e.1)) containers).filter
          (fun c => !(tear c.name).isNone)).length
    ∧ (cleanup_orphans tear cpre st containers).1.expired_count = 0
    ∧ (c0.name.startsWith (cpre ++ "-") = false →
        c0.name ∉ (cleanup_orphans tear cpre st containers).2) := by
  have hgo := cleanup_orphans_go_spec tear cpre (st.tracked.map (fun e => e.1))
    containers emptyCleanupResult []
  have hinv : (cleanup_orphans tear cpre st containers).2
      = (orphan_candidates cpre (st.tracked.map (fun e => e.1)) containers).map
          (fun c => c.name) := by
    rw [cleanup_orphans, hgo]
    simp
  refine ⟨hinv, ?_, ?_, ?_, ?_, ?_⟩
  · rw [cleanup_orphans, hgo]
    simp [emptyCleanupResult]
  · rw [cleanup_orphans, hgo]
    simp [emptyCleanupResult]
  · rw [cleanup_orphans, hgo]
    simp [emptyCleanupResult]
  · rw [cleanup_orphans, hgo]
    simp [emptyCleanupResult]
  · intro hpre hmem
    rw [hinv, List.mem_map] at hmem
    obtain ⟨c1, hc1, hname⟩ := hmem
    have hp := List.of_mem_filter hc1
    rw [Bool.and_eq_true] at hp
    rw [hname] at hp
    rw [hp.1] at hpre
    cases hpre

/-- C4 witness: one tracked deployment "x"; the listing holds "sandbox-y"
(untracked, torn down), "sandbox-x" (tracked, skipped) and a labeled container
"ghost" with an arbitrary name (skipped). -/
theorem claim_C4_witness :
    (cleanup_orphans (fun _ => none) "sandbox"
      { tracked := [("x", 0, 0)], registry := [] }
      [{ id := "i", name := "sandbox-y", status := "running", image := "img",
         pathPrefixVal := "y" },
       { id := "j", name := "sandbox-x", status := "running", image := "img",
         pathPrefixVal := "x" },
       { id := "k", name := "ghost", status := "running", image := "img",
         pathPrefixVal := "ghost" }]).2
      = (orphan_candidates "sandbox" ([("x", (0 : Int), (0 : Nat))].map (fun e => e.1))
          [{ id := "i", name := "sandbox-y", status := "running", image := "img",
             pathPrefixVal := "y" },
           { id := "j", name := "sandbox-x", status := "running", image := "img",
             pathPrefixVal := "x" },
           { id := "k", name := "ghost", status := "running", image := "img",
             pathPrefixVal := "ghost" }]).map (fun c => c.name)
    ∧ (cleanup_orphans (fun _ => none) "sandbox"
      { tracked := [("x", 0, 0)], registry := [] }
      [{ id := "i", name := "sandbox-y", status := "running", image := "img",
         pathPrefixVal := "y" },
       { id := "j", name := "sandbox-x", status := "running", image := "img",
         pathPrefixVal := "x" },
       { id := "k", name := "ghost", status := "running", image := "img",
         pathPrefixVal := "ghost" }]).1.orphan_count
      = ((orphan_candidates "sandbox" ([("x", (0 : Int), (0 : Nat))].map (fun e => e.1))
          [{ id := "i", name := "sandbox-y", status := "running", image := "img",
             pathPrefixVal := "y" },
           { id := "j", name := "sandbox-x", status := "running", image := "img",
             pathPrefixVal := "x" },
           { id := "k", name := "ghost", status := "running", image := "img",
             pathPrefixVal := "ghost" }]).filter
          (fun c => ((fun _ => (none : Option String)) c.name).isNone)).length
    ∧ (cleanup_orphans (fun _ => none) "sandbox"
      { tracked := [("x", 0, 0)], registry := [] }
      [{ id := "i", name := "sandbox-y", status := "running", image := "img",
         pathPrefixVal := "y" },
       { id := "j", name := "sandbox-x", status := "running", image := "img",
         pathPrefixVal := "x" },
       { id := "k", name := "ghost", status := "running", image := "img",
         pathPrefixVal := "ghost" }]).1.containers_removed
      = ((orphan_candidates "sandbox" ([("x", (0 : Int), (0 : Nat))].map (fun e => e.1))
          [{ id := "i", name := "sandbox-y", status := "running", image := "img",
             pathPrefixVal := "y" },
           { id := "j", name := "sandbox-x", status := "running", image := "img",
             pathPrefixVal := "x" },
           { id := "k", name := "ghost", status := "running", image := "img",
             pathPrefixVal := "ghost" }]).filter
          (fun c => ((fun _ => (none : Option String)) c.name).isNone)).map (fun c => c.name)
    ∧ (cleanup_orphans (fun _ => none) "sandbox"
      { tracked := [("x", 0, 0)], registry := [] }
      [{ id := "i", name := "sandbox-y", status := "running", image := "img",
         pathPrefixVal := "y" },
       { id := "j", name := "sandbox-x", status := "running", image := "img",
         pathPrefixVal := "x" },
       { id := "k", name := "ghost", status := "running", image := "img",
         pathPrefixVal := "ghost" }]).1.failed_count
      = ((orphan_candidates "sandbox" ([("x", (0 : Int), (0 : Nat))].map (fun e => e.1))
          [{ id := "i", name := "sandbox-y", status := "running", image := "img",
             pathPrefixVal := "y" },
           { id := "j", name := "sandbox-x", status := "running", image := "img",
             pathPrefixVal := "x" },
           { id := "k", name := "ghost", status := "running", image := "img",
             pathPrefixVal := "ghost" }]).filter
          (fun c => !((fun _ => (none : Option String)) c.name).isNone)).length
    ∧ (cleanup_orphans (fun _ => none) "sandbox"
      { tracked := [("x", 0, 0)], registry := [] }
      [{ id := "i", name := "sandbox-y", status := "running", image := "img",
         pathPrefixVal := "y" },
       { id := "j", name := "sandbox-x", status := "running", image := "img",
         pathPrefixVal := "x" },
       { id := "k", name := "ghost", status := "running", image := "img",
         pathPrefixVal := "ghost" }]).1.expired_count = 0
    ∧ (({ id := "k", name := "ghost", status := "running", image := "img",
          pathPrefixVal := "ghost" } : ContainerInfo).name.startsWith ("sandbox" ++ "-") = false →
        ({ id := "k", name := "ghost", status := "running", image := "img",
           pathPrefixVal := "ghost" } : ContainerInfo).name
          ∉ (cleanup_orphans (fun _ => none) "sandbox"
            { tracked := [("x", 0, 0)], registry := [] }
            [{ id := "i", name := "sandbox-y", status := "running", image := "img",
               pathPrefixVal := "y" },
             { id := "j", name := "sandbox-x", status := "running", image := "img",
               pathPrefixVal := "x" },
             { id := "k", name := "ghost", status := "running", image := "img",
               pathPrefixVal := "ghost" }]).2) :=
  claim_C4 (fun _ => none) "sandbox" { tracked := [("x", 0, 0)], registry := [] }
    [{ id := "i", name := "sandbox-y", status := "running", image := "img",
       pathPrefixVal := "y" },
     { id := "j", name := "sandbox-x", status := "running", image := "img",
       pathPrefixVal := "x" },
     { id := "k", name := "ghost", status := "running", image := "img",
       pathPrefixVal := "ghost" }]
    { id := "k", name := "ghost", status := "running", image := "img",
      pathPrefixVal := "ghost" }

end AgentSandbox
